import Mathlib

/-!
Shallow embedding of the batch job orchestrator in
`chromeExtensionRealtor/batch_processor.py`.

External effects (HTTP calls, the Chrome DevTools endpoint, the
`tab_opener.sh` subprocess, sleeps, and the process-wide shutdown flag)
are modelled as oracles: functions from the attempt number (for
per-attempt reads) or from batch/task indices (for scheduler-level
reads) to the boolean result the Python call would have produced.
Every Python function that swallows its exceptions and returns a
boolean is modelled as the boolean it returns.
-/

namespace BatchProcessor

/-- The `Config` dataclass (fields the orchestration logic reads). -/
structure Config where
  csv_file : String := "90028 realtors LINKS ONLY (copy).csv"
  backend_url : String := "http://localhost:5001"
  progress_file : String := "batch_progress.json"
  batch_size : Nat := 5
  max_workers : Nat := 3
  max_retries : Nat := 3
  progress_save_interval : Nat := 10
deriving Repr, DecidableEq

/-- The `ProcessingStats` dataclass. `errors` is the ordered failure
list of `(url, error)` records. -/
structure ProcessingStats where
  total : Nat := 0
  processed : Nat := 0
  successful : Nat := 0
  failed : Nat := 0
  skipped : Nat := 0
  errors : List (String × String) := []
deriving Repr, DecidableEq

/-- The dictionaries returned by `process_single_url`, classified:
`{"success": True, "skipped": True}` is `skippedDuplicate`;
`{"success": True, "extracted": True}` is `extracted`;
`{"success": False, "error": "Stopped by user"}` is `stoppedByUser`;
`{"success": False, "error": msg}` after the retry loop is
`failedAfterRetries msg`. -/
inductive UrlOutcome where
  | skippedDuplicate
  | extracted
  | stoppedByUser
  | failedAfterRetries (msg : String)
deriving Repr, DecidableEq

/-- Oracles for one call of `process_single_url`.  `initialDup` is the
boolean returned by the initial `check_url_exists` call; `shouldStop k`
is the value of `self.should_stop` read at the top of attempt `k`;
`devtools k` is the boolean returned by
`process_url_via_chrome_devtools` on attempt `k` (its internal
exceptions all yield `False`); `verifyAfterDevtools k` is the
verification `check_url_exists` re-check after a devtools success;
`tabOpenerExists` is `os.path.exists("tab_opener.sh")`;
`tabOpener k` and `verifyAfterTabOpener k` are the fallback trigger and
its verification re-check on attempt `k`. -/
structure ItemEnv where
  initialDup : Bool
  shouldStop : Nat → Bool
  devtools : Nat → Bool
  verifyAfterDevtools : Nat → Bool
  tabOpenerExists : Bool
  tabOpener : Nat → Bool
  verifyAfterTabOpener : Nat → Bool

/-- Result of one `process_single_url` call, together with
instrumentation: how many times each extraction trigger was invoked
and how many retry-loop iterations ran past the shutdown check. -/
structure SingleResult where
  outcome : UrlOutcome
  stats : ProcessingStats
  devtoolsCalls : Nat
  tabOpenerCalls : Nat
  attempts : Nat
deriving Repr

/-- The retry loop `for attempt in range(1, max_retries + 1)` of
`process_single_url`.  `attempt` is the Python loop variable,
`remaining` the number of iterations left (`max_retries - attempt + 1`).
Falling out of the loop records the failure and increments `failed`. -/
def runAttempts (cfg : Config) (env : ItemEnv) (url : String)
    (stats : ProcessingStats) (attempt remaining : Nat) : SingleResult :=
  match remaining with
  | 0 =>
    let msg := "Failed after " ++ toString cfg.max_retries ++ " attempts"
    { outcome := .failedAfterRetries msg
      stats := { stats with
                   failed := stats.failed + 1
                   errors := stats.errors ++ [(url, msg)] }
      devtoolsCalls := 0, tabOpenerCalls := 0, attempts := 0 }
  | r + 1 =>
    if env.shouldStop attempt then
      { outcome := .stoppedByUser, stats := stats
        devtoolsCalls := 0, tabOpenerCalls := 0, attempts := 0 }
    else if env.devtools attempt && env.verifyAfterDevtools attempt then
      { outcome := .extracted
        stats := { stats with successful := stats.successful + 1 }
        devtoolsCalls := 1, tabOpenerCalls := 0, attempts := 1 }
    else if env.tabOpenerExists then
      if env.tabOpener attempt && env.verifyAfterTabOpener attempt then
        { outcome := .extracted
          stats := { stats with successful := stats.successful + 1 }
          devtoolsCalls := 1, tabOpenerCalls := 1, attempts := 1 }
      else
        let rest := runAttempts cfg env url stats (attempt + 1) r
        { rest with
            devtoolsCalls := rest.devtoolsCalls + 1
            tabOpenerCalls := rest.tabOpenerCalls + 1
            attempts := rest.attempts + 1 }
    else
      let rest := runAttempts cfg env url stats (attempt + 1) r
      { rest with
          devtoolsCalls := rest.devtoolsCalls + 1
          attempts := rest.attempts + 1 }

/-- `process_single_url`: initial duplicate check, then the retry loop. -/
def process_single_url (cfg : Config) (env : ItemEnv) (url : String)
    (stats : ProcessingStats) : SingleResult :=
  if env.initialDup then
    { outcome := .skippedDuplicate
      stats := { stats with skipped := stats.skipped + 1 }
      devtoolsCalls := 0, tabOpenerCalls := 0, attempts := 0 }
  else
    runAttempts cfg env url stats 1 cfg.max_retries

/-- The HTTP interaction of `check_url_exists`: either the request (or
parsing) raised, or the backend answered with a JSON body whose
`isDuplicate` field may be absent. -/
inductive DupCheckResult where
  | transportError (e : String)
  | response (isDuplicate : Option Bool)
deriving Repr, DecidableEq

/-- `check_url_exists`: `data.get("isDuplicate", False)` on success,
`False` on any exception. -/
def check_url_exists : DupCheckResult → Bool
  | .transportError _ => false
  | .response b => b.getD false

/-- Scheduler-level oracles.  `batchStop b` is `self.should_stop` as
read at the top of the batch loop before (0-based) batch `b`;
`taskStop b i` is the read before starting task `i` of batch `b`;
`item b i` bundles the oracles consumed by that task's
`process_single_url` call. -/
structure RunEnv where
  batchStop : Nat → Bool
  taskStop : Nat → Nat → Bool
  item : Nat → Nat → ItemEnv

/-- Result of `process_batch`: the stats after all started tasks have
completed, and how many tasks were started (the task-start loop breaks
at the first `should_stop` read that is true). -/
structure BatchResult where
  stats : ProcessingStats
  started : Nat
deriving Repr

/-- The task-start loop of `process_batch`, from task index `i`.  The
thread pool's per-task stats updates are aggregated sequentially; all
started tasks run to a terminal outcome before the batch returns. -/
def process_batch_from (cfg : Config) (env : RunEnv) (b : Nat)
    (urls : List String) (i : Nat) (stats : ProcessingStats) : BatchResult :=
  match urls with
  | [] => { stats := stats, started := 0 }
  | u :: rest =>
    if env.taskStop b i then { stats := stats, started := 0 }
    else
      let r := process_single_url cfg (env.item b i) u stats
      let tail := process_batch_from cfg env b rest (i + 1) r.stats
      { stats := tail.stats, started := tail.started + 1 }

/-- `process_batch` on batch `b`. -/
def process_batch (cfg : Config) (env : RunEnv) (b : Nat)
    (urls : List String) (stats : ProcessingStats) : BatchResult :=
  process_batch_from cfg env b urls 0 stats

/-- Fuelled slicing loop; with `size ≥ 1` a fuel of `xs.length`
suffices, since every round drops at least one element. -/
def chunkListGo (size : Nat) : Nat → List α → List (List α)
  | _, [] => []
  | 0, _ => []
  | fuel + 1, xs => xs.take size :: chunkListGo size fuel (xs.drop size)

/-- `urls[i:i+batch_size]` slicing of the batch loop
`for i in range(0, len(urls), batch_size)` (meaningful for
`batch_size ≥ 1`, the configuration invariant). -/
def chunkList (size : Nat) (xs : List α) : List (List α) :=
  if size = 0 then [] else chunkListGo size xs.length xs

/-- Result of `process_all_urls`: final stats, the stats snapshots
passed to `_save_progress` (periodic checkpoints in order, and the
unconditional run-end save last), and how many batches were started. -/
structure RunResult where
  stats : ProcessingStats
  checkpoints : List ProcessingStats
  batchesStarted : Nat
deriving Repr

/-- The batch loop of `process_all_urls` over the pre-sliced batches,
starting at 0-based batch index `b`.  After each batch the scheduler
adds the full batch length to `processed` and checkpoints when
`processed % progress_save_interval == 0`. -/
def process_batches (cfg : Config) (env : RunEnv)
    (batches : List (List String)) (b : Nat)
    (stats : ProcessingStats) : RunResult :=
  match batches with
  | [] => { stats := stats, checkpoints := [], batchesStarted := 0 }
  | batch :: rest =>
    if env.batchStop b then
      { stats := stats, checkpoints := [], batchesStarted := 0 }
    else
      let br := process_batch cfg env b batch stats
      let s2 := { br.stats with processed := br.stats.processed + batch.length }
      let tail := process_batches cfg env rest (b + 1) s2
      { stats := tail.stats
        checkpoints :=
          (if s2.processed % cfg.progress_save_interval == 0 then [s2] else [])
            ++ tail.checkpoints
        batchesStarted := tail.batchesStarted + 1 }

/-- `process_all_urls`: set `total`, run the batch loop, and perform
the unconditional final `_save_progress` (appended as the last
checkpoint). -/
def process_all_urls (cfg : Config) (env : RunEnv)
    (urls : List String) : RunResult :=
  let s0 : ProcessingStats := { total := urls.length }
  let r := process_batches cfg env (chunkList cfg.batch_size urls) 0 s0
  { r with checkpoints := r.checkpoints ++ [r.stats] }

/-- `processed = successful + failed + skipped`, as a boolean so whole
checkpoint lists can be checked. -/
def statsBalanced (s : ProcessingStats) : Bool :=
  s.processed == s.successful + s.failed + s.skipped

/-- The number of terminal outcomes a stats record has accumulated. -/
def outcomeCount (s : ProcessingStats) : Nat :=
  s.successful + s.failed + s.skipped

/- ========================= CSV loading ========================= -/

/-!
Python string primitives (`str.strip`, `str.startswith`, `str.lower`,
`in`) modelled directly on the character list so they evaluate in the
kernel; Lean's built-in counterparts are defined through `Substring`
positional recursion, which does not reduce.
-/

/-- `list.startswith`-style check on character lists. -/
def charsStartWith : List Char → List Char → Bool
  | _, [] => true
  | [], _ :: _ => false
  | c :: cs, d :: ds => c == d && charsStartWith cs ds

/-- Python `sub in s` on character lists. -/
def charsContain (s sub : List Char) : Bool :=
  charsStartWith s sub ||
    match s with
    | [] => false
    | _ :: t => charsContain t sub

/-- `str.strip()` (with no argument: strip ASCII/Unicode whitespace). -/
def pyStrip (s : String) : String :=
  ⟨((s.data.dropWhile Char.isWhitespace).reverse.dropWhile
      Char.isWhitespace).reverse⟩

/-- `str.startswith(pre)`. -/
def pyStartsWith (s pre : String) : Bool := charsStartWith s.data pre.data

/-- `str.lower()`. -/
def pyLower (s : String) : String := ⟨s.data.map Char.toLower⟩

/-- Python `sub in s`. -/
def pyContains (s sub : String) : Bool := charsContain s.data sub.data

/-- The indicator substrings of `_detect_url_column`. -/
def url_indicators : List String := ["url", "link", "address", "page", "realtor"]

/-- `_detect_url_column`: `"url"` when the field list is falsy, else the
first field whose lowercased name contains an indicator, else
`fieldnames[0]`.  Returns the field NAME, as the source does — the
dict lookup that consumes it has its own (last-duplicate-key)
semantics. -/
def detect_url_column (fieldnames : List String) : String :=
  if fieldnames = [] then "url"
  else
    match fieldnames.find?
        (fun f => url_indicators.any (fun ind => pyContains (pyLower f) ind)) with
    | some f => f
    | none => fieldnames.headD "url"

/-- The greatest index at which `name` occurs in `fields` (arbitrary
when absent; only used under a `contains` guard). -/
def lastIdxOf (fields : List String) (name : String) : Nat :=
  match fields.reverse.findIdx? (fun f => f == name) with
  | some j => fields.length - 1 - j
  | none => fields.length

/-- The value `DictReader` hands `row.get(name, '')` for one record:
`dict(zip(fieldnames, row))` keeps the LAST pair for a duplicated key,
and every field name with no cell in the row (index past the row
length) is then rebound to `restval = None` — so the key `name` maps to
the row cell at the last occurrence of `name` when that occurrence has
a cell, to `None` (modelled `none`) when it does not, and `get`'s
default `''` applies only when `name` is not a field at all. -/
def headerCellValue (fields row : List String) (name : String) :
    Option String :=
  if fields.contains name then
    if lastIdxOf fields name < row.length then
      some (row.getD (lastIdxOf fields name) "")
    else none
  else some ""

/-- The header-branch row loop of `load_urls_from_csv`:
`row.get(url_column, '').strip()`, appended when non-empty.  When the
cell is `DictReader`'s `restval = None` (row missing the chosen
column), `.strip()` raises `AttributeError` and the load aborts. -/
def headerUrls (fields : List String) (name : String) :
    List (List String) → Except String (List String)
  | [] => .ok []
  | row :: rest =>
    match headerCellValue fields row name with
    | none => .error "AttributeError: NoneType has no attribute strip"
    | some v =>
      match headerUrls fields name rest with
      | .error e => .error e
      | .ok tail =>
        if pyStrip v = "" then .ok tail else .ok (pyStrip v :: tail)

/-- The headerless-branch row loop: `if row and row[0].strip()`. -/
def headerlessUrls : List (List String) → List String
  | [] => []
  | row :: rest =>
    match row with
    | [] => headerlessUrls rest
    | c :: _ =>
      if pyStrip c = "" then headerlessUrls rest
      else pyStrip c :: headerlessUrls rest

/-- `load_urls_from_csv` on the parsed CSV rows.  Header sniffing
follows the source: the file's first line (the first record, cells
joined by commas) is stripped; the file is headerless iff it starts
with `http`.  The headered branch can abort with `AttributeError`
(see `headerUrls`); the headerless branch always returns. -/
def load_urls_from_csv (rows : List (List String)) :
    Except String (List String) :=
  let firstLine := pyStrip (String.intercalate "," (rows.headD []))
  let hasHeader := !(pyStartsWith firstLine "http")
  if hasHeader then
    match rows with
    | [] => .ok []
    | header :: body => headerUrls header (detect_url_column header) body
  else
    .ok (headerlessUrls rows)

/-- The column values `load_urls_from_csv` reads, in source order and
trimmed, before the non-emptiness filter (used to state that a
non-aborting load is exactly an order-preserving non-empty filter of
the column; on the `ok` path every cell read is a string, so the
`getD ""` fallback is never exercised there). -/
def csvColumnValues (rows : List (List String)) : List String :=
  let firstLine := pyStrip (String.intercalate "," (rows.headD []))
  if !(pyStartsWith firstLine "http") then
    match rows with
    | [] => []
    | header :: body =>
      body.map (fun row =>
        pyStrip ((headerCellValue header row (detect_url_column header)).getD ""))
  else
    rows.filterMap (fun row => row.head?.map (fun c => pyStrip c))

/- ==================== progress file writes ==================== -/

/-- File-system operations `_save_progress` can perform.  `openTrunc`
is `open(path, 'w')` (truncates), `writeAll` is `json.dump` writing the
serialized snapshot, `rename` is an atomic replace (present in the
vocabulary so the write-to-temp-then-replace discipline is statable,
not because the source uses it). -/
inductive FsOp where
  | openTrunc (path : String)
  | writeAll (path : String) (data : String)
  | rename (src dst : String)
deriving Repr, DecidableEq

/-- File system contents: path to file content, `none` when absent. -/
def FsState := String → Option String

/-- Effect of one operation. -/
def applyFsOp (fs : FsState) : FsOp → FsState
  | .openTrunc p => fun q => if q = p then some "" else fs q
  | .writeAll p d => fun q => if q = p then some (((fs p).getD "") ++ d) else fs q
  | .rename src dst =>
    fun q => if q = dst then fs src else if q = src then none else fs q

/-- Run a sequence of operations. -/
def runFsOps (fs : FsState) (ops : List FsOp) : FsState :=
  ops.foldl applyFsOp fs

/-- The operations `_save_progress` performs on the snapshot file,
given the serialized snapshot `data`: open-truncate in place, then
write.  No temporary file and no replace step. -/
def save_progress_ops (cfg : Config) (data : String) : List FsOp :=
  [.openTrunc cfg.progress_file, .writeAll cfg.progress_file data]

/- ==================== Chrome supervision ==================== -/

/-- Oracles for `start_chrome`: `spawn` is `subprocess.Popen`
(`some pid` on success, `none` if it raised) and `debugPortOk` the
result of `_verify_chrome_debugging`. -/
structure ChromeEnv where
  spawn : Option Nat
  debugPortOk : Bool
deriving Repr, DecidableEq

/-- Observable actions of `stop_chrome` on the OS process. -/
inductive StopAction where
  | terminate (pid : Nat)
deriving Repr, DecidableEq

/-- `start_chrome` acting on `self.chrome_process` (`none` = no
supervised process).  On `Popen` failure the exception is caught,
`chrome_process` is left unchanged and `False` is returned; after a
successful spawn the debugging-port probe decides the return value
(the probe failure raises, is caught, and returns `False`, with
`chrome_process` still set). -/
def start_chrome (env : ChromeEnv) (proc : Option Nat) : Option Nat × Bool :=
  match env.spawn with
  | none => (proc, false)
  | some pid => (some pid, env.debugPortOk)

/-- `stop_chrome`: no-op when `chrome_process` is `None`; otherwise
terminate (gracefully, forcing on timeout — both caught) and clear the
handle.  Returns the new handle and the actions performed. -/
def stop_chrome (proc : Option Nat) : Option Nat × List StopAction :=
  match proc with
  | none => (none, [])
  | some pid => (none, [.terminate pid])

/- ==================== concrete fixtures ==================== -/

/-- An item whose duplicate check is negative, whose extraction
triggers report success but whose verification always fails, with the
fallback script present; shutdown never requested. -/
def envAllFail : ItemEnv :=
  { initialDup := false
    shouldStop := fun _ => false
    devtools := fun _ => true
    verifyAfterDevtools := fun _ => false
    tabOpenerExists := true
    tabOpener := fun _ => true
    verifyAfterTabOpener := fun _ => false }

/-- An item whose duplicate check is negative and whose first devtools
attempt verifies; shutdown never requested. -/
def envHappy : ItemEnv :=
  { initialDup := false
    shouldStop := fun _ => false
    devtools := fun _ => true
    verifyAfterDevtools := fun _ => true
    tabOpenerExists := false
    tabOpener := fun _ => false
    verifyAfterTabOpener := fun _ => false }

/-- An item already stored in the backend (duplicate check positive),
observed while the shutdown flag is set at every read point. -/
def envShutdownDup : ItemEnv :=
  { initialDup := true
    shouldStop := fun _ => true
    devtools := fun _ => false
    verifyAfterDevtools := fun _ => false
    tabOpenerExists := false
    tabOpener := fun _ => false
    verifyAfterTabOpener := fun _ => false }

/-- An item that is not a duplicate, observed with the shutdown flag
set at every read point. -/
def envShutdownFresh : ItemEnv :=
  { envShutdownDup with initialDup := false }

/-- An item that is not a duplicate, whose first attempt runs with the
flag clear and fails verification, and whose second attempt check reads
the flag as set (the flag was raised during the retry wait). -/
def envLateStop : ItemEnv :=
  { initialDup := false
    shouldStop := fun k => decide (2 ≤ k)
    devtools := fun _ => true
    verifyAfterDevtools := fun _ => false
    tabOpenerExists := false
    tabOpener := fun _ => false
    verifyAfterTabOpener := fun _ => false }

/-- A run in which the shutdown flag is never set and every item
verifies on its first attempt. -/
def envRunHappy : RunEnv :=
  { batchStop := fun _ => false
    taskStop := fun _ _ => false
    item := fun _ _ => envHappy }

/-- A run in which the shutdown flag becomes set after the batch loop's
check but before the first task of the batch is started. -/
def envRunMidBatchStop : RunEnv :=
  { batchStop := fun _ => false
    taskStop := fun _ _ => true
    item := fun _ _ => envHappy }

/-- A run observed entirely after the shutdown flag is set. -/
def envRunStopped : RunEnv :=
  { batchStop := fun _ => true
    taskStop := fun _ _ => true
    item := fun _ _ => envShutdownFresh }

/-- One-item batches with a checkpoint after every batch. -/
def cfgTight : Config := { batch_size := 1, progress_save_interval := 1 }

/-- A configuration with the retry budget set to zero. -/
def cfgNoRetries : Config := { max_retries := 0 }

/-- A configuration with two retries. -/
def cfgTwoRetries : Config := { max_retries := 2 }

/-- A file system whose snapshot file holds a previous valid snapshot. -/
def fsOld : FsState :=
  fun q => if q = "batch_progress.json" then some "OLD" else none

/-- A Chrome environment whose spawn succeeds but whose debugging-port
probe fails, i.e. a failed `start_chrome`. -/
def chromeEnvFailedStart : ChromeEnv := { spawn := some 7, debugPortOk := false }

end BatchProcessor

section Scratch
open BatchProcessor

example : check_url_exists (.transportError "timeout") = false := by decide
example : check_url_exists (.response (some true)) = true := by decide
example : check_url_exists (.response none) = false := by decide
example : chunkList 2 ["a", "b", "c", "d", "e"] = [["a", "b"], ["c", "d"], ["e"]] := by decide
example : (process_single_url { } envHappy "u" { }).outcome = .extracted := by decide
example : (process_single_url cfgTwoRetries envAllFail "u" { }).attempts = 2 := by decide
example : load_urls_from_csv [["http://a"], ["http://a"]]
    = .ok ["http://a", "http://a"] := rfl
example : load_urls_from_csv [["name", "url"], ["bob"]]
    = .error "AttributeError: NoneType has no attribute strip" := rfl
example : load_urls_from_csv [["url", "url"], ["a", "http://b"]]
    = .ok ["http://b"] := rfl
example : statsBalanced (process_all_urls cfgTight envRunMidBatchStop ["http://a"]).stats = false := by
  decide

end Scratch

section ClaimTheorems
open BatchProcessor

/-- C8: for every identifier, a duplicate-check call that fails with a
transport/backend error yields `isDuplicate = false`: `check_url_exists`
returns `false` on any exception (and also when the response omits the
`isDuplicate` field). -/
theorem C8_thm : ∀ e : String, check_url_exists (.transportError e) = false :=
  fun _ => rfl

/-- C7: an identifier whose initial backend duplicate check is positive
is skipped: the outcome is `skippedDuplicate`, the skipped count is
incremented and nothing else changes, no extraction trigger is invoked,
and no retry attempt is consumed — independently of every other oracle,
so re-running on an already-stored identifier never re-extracts. -/
theorem C7_thm (cfg : Config) (env : ItemEnv) (url : String)
    (stats : ProcessingStats) (hdup : env.initialDup = true) :
    (process_single_url cfg env url stats).outcome = .skippedDuplicate
    ∧ (process_single_url cfg env url stats).stats
        = { stats with skipped := stats.skipped + 1 }
    ∧ (process_single_url cfg env url stats).devtoolsCalls = 0
    ∧ (process_single_url cfg env url stats).tabOpenerCalls = 0
    ∧ (process_single_url cfg env url stats).attempts = 0 := by
  simp [process_single_url, hdup]

/-- C7 witness: the theorem applied to the concrete already-stored item
`envShutdownDup` (duplicate check positive). -/
theorem C7_witness :
    (process_single_url { } envShutdownDup "http://a" { }).outcome
      = .skippedDuplicate
    ∧ (process_single_url { } envShutdownDup "http://a" { }).stats
        = { ({ } : ProcessingStats) with skipped := 1 }
    ∧ (process_single_url { } envShutdownDup "http://a" { }).devtoolsCalls = 0
    ∧ (process_single_url { } envShutdownDup "http://a" { }).tabOpenerCalls = 0
    ∧ (process_single_url { } envShutdownDup "http://a" { }).attempts = 0 :=
  C7_thm { } envShutdownDup "http://a" { } rfl

/-- C10: with `max_retries = 0`, a non-duplicate identifier is recorded
as failed with message `"Failed after 0 attempts"` and neither
extraction trigger is ever invoked. -/
theorem C10_thm (cfg : Config) (env : ItemEnv) (url : String)
    (stats : ProcessingStats) (hzero : cfg.max_retries = 0)
    (hdup : env.initialDup = false) :
    (process_single_url cfg env url stats).outcome
      = .failedAfterRetries "Failed after 0 attempts"
    ∧ (process_single_url cfg env url stats).devtoolsCalls = 0
    ∧ (process_single_url cfg env url stats).tabOpenerCalls = 0
    ∧ (process_single_url cfg env url stats).attempts = 0
    ∧ (process_single_url cfg env url stats).stats.failed = stats.failed + 1
    ∧ (process_single_url cfg env url stats).stats.errors
        = stats.errors ++ [(url, "Failed after 0 attempts")] := by
  have hmsg : ("Failed after " ++ toString (0 : Nat) ++ " attempts")
      = "Failed after 0 attempts" := rfl
  simp [process_single_url, hdup, hzero, runAttempts, hmsg]

/-- C10 witness: the theorem applied to `cfgNoRetries` and the concrete
non-duplicate item `envHappy` (whose trigger would succeed, showing the
trigger is indeed never consulted). -/
theorem C10_witness :
    (process_single_url cfgNoRetries envHappy "http://a" { }).outcome
      = .failedAfterRetries "Failed after 0 attempts"
    ∧ (process_single_url cfgNoRetries envHappy "http://a" { }).devtoolsCalls = 0
    ∧ (process_single_url cfgNoRetries envHappy "http://a" { }).tabOpenerCalls = 0
    ∧ (process_single_url cfgNoRetries envHappy "http://a" { }).attempts = 0
    ∧ (process_single_url cfgNoRetries envHappy "http://a" { }).stats.failed = 0 + 1
    ∧ (process_single_url cfgNoRetries envHappy "http://a" { }).stats.errors
        = [] ++ [("http://a", "Failed after 0 attempts")] :=
  C10_thm cfgNoRetries envHappy "http://a" { } rfl rfl

/-- C9: `stop_chrome` is a no-op (no process actions, no error) when no
process is supervised; it is idempotent (a second call after any call
is a no-op on a `Stopped` handle); and after a failed `start_chrome` it
is still safe and leaves the handle `Stopped` (`none`). -/
theorem C9_thm :
    stop_chrome none = (none, [])
    ∧ (∀ st : Option Nat, stop_chrome (stop_chrome st).1 = (none, []))
    ∧ (∀ env : ChromeEnv, (start_chrome env none).2 = false →
        (stop_chrome (start_chrome env none).1).1 = none
        ∧ stop_chrome (stop_chrome (start_chrome env none).1).1 = (none, [])) := by
  refine ⟨rfl, ?_, ?_⟩
  · intro st
    cases st <;> rfl
  · intro env _
    cases h : env.spawn <;> simp [start_chrome, stop_chrome, h]

/-- C9 witness: the failed-start clause applied to the concrete
environment `chromeEnvFailedStart` (spawn succeeds, probe fails). -/
theorem C9_witness :
    (stop_chrome (start_chrome chromeEnvFailedStart none).1).1 = none
    ∧ stop_chrome (stop_chrome (start_chrome chromeEnvFailedStart none).1).1
        = (none, []) :=
  C9_thm.2.2 chromeEnvFailedStart rfl

/-- C5 counterexample: the snapshot write is not temp-then-replace — a
crash after the first step of `_save_progress` (the in-place
`open(path, 'w')` truncation) leaves the snapshot file empty, which is
neither the previous valid snapshot `"OLD"` nor the new one `"NEW"`. -/
theorem C5_counterexample :
    fsOld "batch_progress.json" = some "OLD"
    ∧ runFsOps fsOld ((save_progress_ops { } "NEW").take 1)
        "batch_progress.json" = some ""
    ∧ (some "" : Option String) ≠ some "OLD"
    ∧ (some "" : Option String) ≠ some "NEW" := by
  refine ⟨by decide, by decide, by decide, by decide⟩

/-- C5 amended: each checkpoint is a full-state overwrite, but it is
performed by truncating the snapshot file in place and then writing;
after the full write the file holds exactly the new snapshot, while a
crash between truncation and write leaves it empty (the previous
snapshot is not protected). -/
theorem C5_thm (cfg : Config) (data : String) (fs : FsState) :
    runFsOps fs (save_progress_ops cfg data) cfg.progress_file = some data
    ∧ runFsOps fs ((save_progress_ops cfg data).take 1) cfg.progress_file
        = some "" := by
  constructor
  · show applyFsOp (applyFsOp fs (.openTrunc cfg.progress_file))
        (.writeAll cfg.progress_file data) cfg.progress_file = some data
    simp only [applyFsOp, if_pos rfl, Option.getD_some]
    cases data
    rfl
  · show applyFsOp fs (.openTrunc cfg.progress_file) cfg.progress_file = some ""
    simp [applyFsOp]

/-- Helper: when every verification re-check fails (and shutdown is
never requested), the retry loop runs all `remaining` iterations,
invokes the devtools trigger once per iteration (and the fallback once
per iteration when present), and ends in the recorded failure. -/
theorem runAttempts_allFail (cfg : Config) (env : ItemEnv) (url : String)
    (hstop : ∀ k, env.shouldStop k = false)
    (hv1 : ∀ k, env.verifyAfterDevtools k = false)
    (hv2 : ∀ k, env.verifyAfterTabOpener k = false) :
    ∀ remaining attempt stats,
      runAttempts cfg env url stats attempt remaining =
        { outcome := .failedAfterRetries
            ("Failed after " ++ toString cfg.max_retries ++ " attempts")
          stats := { stats with
                       failed := stats.failed + 1
                       errors := stats.errors ++
                         [(url, "Failed after " ++ toString cfg.max_retries
                            ++ " attempts")] }
          devtoolsCalls := remaining
          tabOpenerCalls := if env.tabOpenerExists then remaining else 0
          attempts := remaining } := by
  intro remaining
  induction remaining with
  | zero =>
    intro attempt stats
    simp [runAttempts]
  | succ r ih =>
    intro attempt stats
    by_cases hto : env.tabOpenerExists
    · simp [runAttempts, hstop, hv1, hv2, hto, ih]
    · simp [runAttempts, hstop, hv1, hv2, hto, ih]

/-- C3: a non-duplicate identifier whose extraction always fails
verification (with shutdown never requested) gets exactly
`max_retries` retry-loop attempts — the devtools trigger fires once
per attempt — and is then recorded exactly once in the failure list
with error `"Failed after N attempts"`, with the failed count
incremented exactly once. -/
theorem C3_thm (cfg : Config) (env : ItemEnv) (url : String)
    (stats : ProcessingStats) (hdup : env.initialDup = false)
    (hstop : ∀ k, env.shouldStop k = false)
    (hv1 : ∀ k, env.verifyAfterDevtools k = false)
    (hv2 : ∀ k, env.verifyAfterTabOpener k = false) :
    (process_single_url cfg env url stats).attempts = cfg.max_retries
    ∧ (process_single_url cfg env url stats).devtoolsCalls = cfg.max_retries
    ∧ (process_single_url cfg env url stats).outcome
        = .failedAfterRetries
            ("Failed after " ++ toString cfg.max_retries ++ " attempts")
    ∧ (process_single_url cfg env url stats).stats.failed = stats.failed + 1
    ∧ (process_single_url cfg env url stats).stats.errors
        = stats.errors ++
            [(url, "Failed after " ++ toString cfg.max_retries ++ " attempts")]
    ∧ (process_single_url cfg env url stats).stats.successful = stats.successful
    ∧ (process_single_url cfg env url stats).stats.skipped = stats.skipped := by
  simp [process_single_url, hdup,
    runAttempts_allFail cfg env url hstop hv1 hv2]

/-- C3 witness: the theorem applied to `cfgTwoRetries` and the concrete
always-failing item `envAllFail`. -/
theorem C3_witness :
    (process_single_url cfgTwoRetries envAllFail "http://a" { }).attempts
        = cfgTwoRetries.max_retries
    ∧ (process_single_url cfgTwoRetries envAllFail "http://a" { }).devtoolsCalls
        = cfgTwoRetries.max_retries
    ∧ (process_single_url cfgTwoRetries envAllFail "http://a" { }).outcome
        = .failedAfterRetries
            ("Failed after " ++ toString cfgTwoRetries.max_retries ++ " attempts")
    ∧ (process_single_url cfgTwoRetries envAllFail "http://a" { }).stats.failed
        = ({ } : ProcessingStats).failed + 1
    ∧ (process_single_url cfgTwoRetries envAllFail "http://a" { }).stats.errors
        = ({ } : ProcessingStats).errors ++
            [("http://a", "Failed after " ++ toString cfgTwoRetries.max_retries
                ++ " attempts")]
    ∧ (process_single_url cfgTwoRetries envAllFail "http://a" { }).stats.successful
        = ({ } : ProcessingStats).successful
    ∧ (process_single_url cfgTwoRetries envAllFail "http://a" { }).stats.skipped
        = ({ } : ProcessingStats).skipped :=
  C3_thm cfgTwoRetries envAllFail "http://a" { } rfl
    (fun _ => rfl) (fun _ => rfl) (fun _ => rfl)

/-- Helper: the retry loop only ever returns the `extracted` outcome
when, on some attempt, a trigger reported success and the subsequent
verification re-check was positive. -/
theorem runAttempts_extracted (cfg : Config) (env : ItemEnv) (url : String) :
    ∀ remaining attempt stats,
      (runAttempts cfg env url stats attempt remaining).outcome = .extracted →
      ∃ k, (env.devtools k && env.verifyAfterDevtools k) = true
         ∨ (env.tabOpener k && env.verifyAfterTabOpener k) = true := by
  intro remaining
  induction remaining with
  | zero =>
    intro attempt stats h
    simp [runAttempts] at h
  | succ r ih =>
    intro attempt stats h
    simp only [runAttempts] at h
    by_cases h1 : env.shouldStop attempt
    · simp [h1] at h
    · simp only [h1, Bool.false_eq_true, if_false] at h
      by_cases h2 : (env.devtools attempt && env.verifyAfterDevtools attempt) = true
      · exact ⟨attempt, Or.inl h2⟩
      · simp only [h2, if_false] at h
        by_cases h3 : env.tabOpenerExists
        · simp only [h3, if_true] at h
          by_cases h4 :
              (env.tabOpener attempt && env.verifyAfterTabOpener attempt) = true
          · exact ⟨attempt, Or.inr h4⟩
          · simp only [h4, if_false] at h
            exact ih (attempt + 1) stats h
        · simp only [h3, Bool.false_eq_true, if_false] at h
          exact ih (attempt + 1) stats h

/-- C6: an identifier only ever reaches the `extracted` (Succeeded)
outcome if on some attempt the post-extraction verification re-check of
the backend was positive; a trigger's own success report alone never
yields success. -/
theorem C6_thm (cfg : Config) (env : ItemEnv) (url : String)
    (stats : ProcessingStats)
    (h : (process_single_url cfg env url stats).outcome = .extracted) :
    ∃ k, (env.devtools k && env.verifyAfterDevtools k) = true
       ∨ (env.tabOpener k && env.verifyAfterTabOpener k) = true := by
  unfold process_single_url at h
  by_cases hdup : env.initialDup
  · simp [hdup] at h
  · simp only [hdup, Bool.false_eq_true, if_false] at h
    exact runAttempts_extracted cfg env url cfg.max_retries 1 stats h

/-- C6 witness: the theorem applied to the concrete item `envHappy`,
whose first attempt triggers and verifies. -/
theorem C6_witness :
    ∃ k, (envHappy.devtools k && envHappy.verifyAfterDevtools k) = true
       ∨ (envHappy.tabOpener k && envHappy.verifyAfterTabOpener k) = true :=
  C6_thm { } envHappy "http://a" { } (by decide)

/-- Helper: whenever the header-branch row loop completes without the
`AttributeError` abort, its result is exactly the in-order non-empty
filter of the trimmed chosen-column values. -/
theorem headerUrls_ok_eq_filter (fields : List String) (name : String) :
    ∀ (body : List (List String)) (urls : List String),
      headerUrls fields name body = .ok urls →
      urls = (body.map (fun row =>
          pyStrip ((headerCellValue fields row name).getD ""))).filter
            (fun s => !(s == "")) := by
  intro body
  induction body with
  | nil =>
    intro urls h
    simp only [headerUrls] at h
    cases h
    rfl
  | cons row rest ih =>
    intro urls h
    cases hcell : headerCellValue fields row name with
    | none => simp [headerUrls, hcell] at h
    | some v =>
      cases htail : headerUrls fields name rest with
      | error e => simp [headerUrls, hcell, htail] at h
      | ok tail =>
        have hrec := ih tail htail
        by_cases hv : pyStrip v = ""
        · have hurls : urls = tail := by
            simp [headerUrls, hcell, htail, hv] at h
            exact h.symm
          simp [hurls, hrec, List.filter_cons, hcell, hv]
        · have hurls : urls = pyStrip v :: tail := by
            simp [headerUrls, hcell, htail, hv] at h
            exact h.symm
          simp [hurls, hrec, List.filter_cons, hcell, hv]

/-- Helper: the headerless-branch row loop is exactly the in-order
non-empty filter of the trimmed first-column values. -/
theorem headerlessUrls_eq_filter :
    ∀ rows : List (List String),
      headerlessUrls rows
        = (rows.filterMap (fun row => row.head?.map (fun c => pyStrip c))).filter
            (fun s => !(s == "")) := by
  intro rows
  induction rows with
  | nil => rfl
  | cons row rest ih =>
    cases row with
    | nil => simpa [headerlessUrls, List.filterMap_cons] using ih
    | cons c cs =>
      simp only [headerlessUrls, List.filterMap_cons, List.head?_cons,
        Option.map_some, List.filter_cons]
      by_cases h : pyStrip c = ""
      · simp [h, ih]
      · simp [h, ih]

/-- Helper: with shutdown never requested, one retry loop contributes
exactly one terminal outcome to the counters and leaves `processed`
untouched. -/
theorem runAttempts_outcomeCount (cfg : Config) (env : ItemEnv) (url : String)
    (hstop : ∀ k, env.shouldStop k = false) :
    ∀ remaining attempt stats,
      outcomeCount (runAttempts cfg env url stats attempt remaining).stats
          = outcomeCount stats + 1
      ∧ (runAttempts cfg env url stats attempt remaining).stats.processed
          = stats.processed := by
  intro remaining
  induction remaining with
  | zero =>
    intro attempt stats
    simp [runAttempts, outcomeCount]
    omega
  | succ r ih =>
    intro attempt stats
    cases h2 : (env.devtools attempt && env.verifyAfterDevtools attempt) with
    | true =>
      simp [runAttempts, hstop, h2, outcomeCount]
      omega
    | false =>
      cases h3 : env.tabOpenerExists with
      | true =>
        cases h4 :
            (env.tabOpener attempt && env.verifyAfterTabOpener attempt) with
        | true =>
          simp [runAttempts, hstop, h2, h3, h4, outcomeCount]
          omega
        | false =>
          simpa [runAttempts, hstop, h2, h3, h4, outcomeCount] using
            ih (attempt + 1) stats
      | false =>
        simpa [runAttempts, hstop, h2, h3, outcomeCount] using
          ih (attempt + 1) stats

/-- Helper: with shutdown never requested, one item contributes exactly
one terminal outcome (skip, success, or failure) to the counters and
leaves `processed` untouched. -/
theorem process_single_outcomeCount (cfg : Config) (env : ItemEnv)
    (url : String) (stats : ProcessingStats)
    (hstop : ∀ k, env.shouldStop k = false) :
    outcomeCount (process_single_url cfg env url stats).stats
        = outcomeCount stats + 1
    ∧ (process_single_url cfg env url stats).stats.processed
        = stats.processed := by
  cases hdup : env.initialDup with
  | true =>
    simp [process_single_url, hdup, outcomeCount]
    omega
  | false =>
    simpa [process_single_url, hdup] using
      runAttempts_outcomeCount cfg env url hstop cfg.max_retries 1 stats

/-- Helper: with shutdown never requested, a batch of `n` identifiers
contributes exactly `n` terminal outcomes to the counters and leaves
`processed` untouched. -/
theorem process_batch_from_outcomeCount (cfg : Config) (env : RunEnv) (b : Nat)
    (htask : ∀ i, env.taskStop b i = false)
    (hstop : ∀ i k, (env.item b i).shouldStop k = false) :
    ∀ (urls : List String) (i : Nat) (stats : ProcessingStats),
      outcomeCount (process_batch_from cfg env b urls i stats).stats
          = outcomeCount stats + urls.length
      ∧ (process_batch_from cfg env b urls i stats).stats.processed
          = stats.processed := by
  intro urls
  induction urls with
  | nil =>
    intro i stats
    simp [process_batch_from]
  | cons u rest ih =>
    intro i stats
    have h1 := process_single_outcomeCount cfg (env.item b i) u stats (hstop i)
    have h2 := ih (i + 1) (process_single_url cfg (env.item b i) u stats).stats
    simp [process_batch_from, htask i]
    omega

/-- Helper: with shutdown never requested, every periodic checkpoint
and the stats after the batch loop are balanced, provided the loop
starts from balanced stats. -/
theorem process_batches_balanced (cfg : Config) (env : RunEnv)
    (hbatch : ∀ b, env.batchStop b = false)
    (htask : ∀ b i, env.taskStop b i = false)
    (hstop : ∀ b i k, (env.item b i).shouldStop k = false) :
    ∀ (batches : List (List String)) (b : Nat) (stats : ProcessingStats),
      statsBalanced stats = true →
      ((process_batches cfg env batches b stats).checkpoints.all statsBalanced)
          = true
      ∧ statsBalanced (process_batches cfg env batches b stats).stats = true := by
  intro batches
  induction batches with
  | nil =>
    intro b stats h
    simpa [process_batches] using h
  | cons batch rest ih =>
    intro b stats h
    have hb := process_batch_from_outcomeCount cfg env b (htask b) (hstop b)
      batch 0 stats
    simp only [statsBalanced, beq_iff_eq] at h
    have hs2 : statsBalanced
        { (process_batch cfg env b batch stats).stats with
            processed :=
              (process_batch cfg env b batch stats).stats.processed
                + batch.length } = true := by
      simp [statsBalanced, outcomeCount, process_batch] at hb ⊢
      omega
    have htail := ih (b + 1) _ hs2
    simp only [process_batches, hbatch b, Bool.false_eq_true, if_false,
      List.all_append, Bool.and_eq_true]
    refine ⟨⟨?_, ?_⟩, ?_⟩
    · cases hck :
          (((process_batch cfg env b batch stats).stats.processed + batch.length)
            % cfg.progress_save_interval == 0) with
      | true => simpa [hck] using hs2
      | false => simp [hck]
    · simpa using htail.1
    · simpa using htail.2

/-- C1 amended: provided the shutdown flag is never set during the run,
`processed = successful + failed + skipped` holds at every periodic
checkpoint and at the unconditional run-end save (shutdown mid-batch
breaks the equality: `processed` is advanced by the full batch length,
counting unstarted and aborted items). -/
theorem C1_thm (cfg : Config) (env : RunEnv) (urls : List String)
    (hbatch : ∀ b, env.batchStop b = false)
    (htask : ∀ b i, env.taskStop b i = false)
    (hstop : ∀ b i k, (env.item b i).shouldStop k = false) :
    ((process_all_urls cfg env urls).checkpoints.all statsBalanced) = true := by
  have h0 : statsBalanced { total := urls.length } = true := by
    simp [statsBalanced]
  have h := process_batches_balanced cfg env hbatch htask hstop
    (chunkList cfg.batch_size urls) 0 { total := urls.length } h0
  simp only [process_all_urls, List.all_append, h.1, List.all_cons, h.2,
    List.all_nil, Bool.and_true]

/-- C1 witness: the theorem applied to a concrete shutdown-free run of
three identifiers in one-item batches with a checkpoint after every
batch. -/
theorem C1_witness :
    ((process_all_urls cfgTight envRunHappy
        ["http://a", "http://b", "http://c"]).checkpoints.all statsBalanced)
      = true :=
  C1_thm cfgTight envRunHappy ["http://a", "http://b", "http://c"]
    (fun _ => rfl) (fun _ _ => rfl) (fun _ _ _ => rfl)

/-- C1 counterexample: in a run where the shutdown flag becomes set
after the batch loop's check but before the batch's first task starts,
`processed` is advanced by the batch length while no outcome counter
moves, so the run-end snapshot violates
`processed = successful + failed + skipped`. -/
theorem C1_counterexample :
    ((process_all_urls cfgTight envRunMidBatchStop ["http://a"]).checkpoints.all
        statsBalanced) = false
    ∧ (process_all_urls cfgTight envRunMidBatchStop ["http://a"]).stats.processed
        = 1
    ∧ (process_all_urls cfgTight envRunMidBatchStop ["http://a"]).stats.successful
        = 0
    ∧ (process_all_urls cfgTight envRunMidBatchStop ["http://a"]).stats.failed
        = 0
    ∧ (process_all_urls cfgTight envRunMidBatchStop ["http://a"]).stats.skipped
        = 0 :=
  ⟨by decide, by decide, by decide, by decide, by decide⟩

/-- Helper: the batch loop starts no batch past an index at which the
shutdown flag is read as set. -/
theorem process_batches_stopBound (cfg : Config) (env : RunEnv) :
    ∀ (batches : List (List String)) (b0 b : Nat) (stats : ProcessingStats),
      env.batchStop (b0 + b) = true →
      (process_batches cfg env batches b0 stats).batchesStarted ≤ b := by
  intro batches
  induction batches with
  | nil =>
    intro b0 b stats _
    simp [process_batches]
  | cons batch rest ih =>
    intro b0 b stats h
    cases hb : env.batchStop b0 with
    | true => simp [process_batches, hb]
    | false =>
      cases b with
      | zero =>
        rw [Nat.add_zero] at h
        rw [h] at hb
        exact absurd hb (by simp)
      | succ b' =>
        have h' : env.batchStop (b0 + 1 + b') = true := by
          have e : b0 + 1 + b' = b0 + (b' + 1) := by omega
          rw [e]
          exact h
        simp only [process_batches, hb, Bool.false_eq_true, if_false]
        exact Nat.succ_le_succ (ih (b0 + 1) b' _ h')

/-- Helper: the task-start loop of a batch starts no task past an index
at which the shutdown flag is read as set. -/
theorem process_batch_from_stopBound (cfg : Config) (env : RunEnv) (b : Nat) :
    ∀ (urls : List String) (i0 i : Nat) (stats : ProcessingStats),
      env.taskStop b (i0 + i) = true →
      (process_batch_from cfg env b urls i0 stats).started ≤ i := by
  intro urls
  induction urls with
  | nil =>
    intro i0 i stats _
    simp [process_batch_from]
  | cons u rest ih =>
    intro i0 i stats h
    cases ht : env.taskStop b i0 with
    | true => simp [process_batch_from, ht]
    | false =>
      cases i with
      | zero =>
        rw [Nat.add_zero] at h
        rw [h] at ht
        exact absurd ht (by simp)
      | succ i' =>
        have h' : env.taskStop b (i0 + 1 + i') = true := by
          have e : i0 + 1 + i' = i0 + (i' + 1) := by omega
          rw [e]
          exact h
        simp only [process_batch_from, ht, Bool.false_eq_true, if_false]
        exact Nat.succ_le_succ (ih (i0 + 1) i' _ h')

/-- Helper: a retry loop that reads the shutdown flag as set at the
start of attempt `k` — every earlier attempt having read it clear and
failed to verify (so the loop actually reaches the `k`-th check) —
terminates with the `stoppedByUser` (Aborted) outcome, leaving the
stats (failed count and failure list included) untouched; only the
`k - attempt` attempts before the flagged check invoked the triggers. -/
theorem runAttempts_stopAtRead (cfg : Config) (env : ItemEnv) (url : String) :
    ∀ (remaining attempt : Nat) (stats : ProcessingStats) (k : Nat),
      attempt ≤ k → k < attempt + remaining →
      (∀ j, attempt ≤ j → j < k →
        env.shouldStop j = false
        ∧ (env.devtools j && env.verifyAfterDevtools j) = false
        ∧ (env.tabOpenerExists = true →
            (env.tabOpener j && env.verifyAfterTabOpener j) = false)) →
      env.shouldStop k = true →
      (runAttempts cfg env url stats attempt remaining).outcome = .stoppedByUser
      ∧ (runAttempts cfg env url stats attempt remaining).stats = stats
      ∧ (runAttempts cfg env url stats attempt remaining).devtoolsCalls
          = k - attempt
      ∧ (runAttempts cfg env url stats attempt remaining).tabOpenerCalls
          = (if env.tabOpenerExists = true then k - attempt else 0) := by
  intro remaining
  induction remaining with
  | zero =>
    intro attempt stats k h1 h2 _ _
    omega
  | succ r ih =>
    intro attempt stats k h1 h2 hbefore hk
    by_cases hak : attempt = k
    · subst hak
      simp [runAttempts, hk]
    · have hlt : attempt < k := by omega
      obtain ⟨hs, hdv, hto⟩ := hbefore attempt (Nat.le_refl _) hlt
      have hrec := ih (attempt + 1) stats k (by omega) (by omega)
        (fun j hj1 hj2 => hbefore j (by omega) hj2) hk
      cases h3 : env.tabOpenerExists with
      | true =>
        have hfb := hto h3
        simp only [h3, if_true] at hrec
        simp only [runAttempts, hs, Bool.false_eq_true, if_false, hdv, hfb,
          h3, if_true]
        refine ⟨hrec.1, hrec.2.1, ?_, ?_⟩
        · have := hrec.2.2.1
          omega
        · have := hrec.2.2.2
          omega
      | false =>
        simp only [h3, Bool.false_eq_true, if_false] at hrec
        simp only [runAttempts, hs, Bool.false_eq_true, if_false, hdv, h3]
        refine ⟨hrec.1, hrec.2.1, ?_, ?_⟩
        · have := hrec.2.2.1
          omega
        · have := hrec.2.2.2
          omega

/-- C4 amended: once the shutdown flag is set, no new batch and no new
within-batch task is started (the start loops never run past an index
where the flag reads true), and an in-flight item that reads the flag
as set at the start of any extraction attempt — the first, or a later
one reached after earlier attempts read it clear and failed to verify —
terminates with the Aborted outcome: not counted as Failed, not
recorded in the failure list, with only the attempts before the flagged
check having invoked the triggers.  (An in-flight item only reads the
flag at attempt starts, so it can still terminate Skipped via its
duplicate check, or Succeeded by completing its current attempt.) -/
theorem C4_thm :
    (∀ (cfg : Config) (env : RunEnv) (batches : List (List String))
        (b0 b : Nat) (stats : ProcessingStats),
        env.batchStop (b0 + b) = true →
        (process_batches cfg env batches b0 stats).batchesStarted ≤ b)
    ∧ (∀ (cfg : Config) (env : RunEnv) (b : Nat) (urls : List String)
        (i0 i : Nat) (stats : ProcessingStats),
        env.taskStop b (i0 + i) = true →
        (process_batch_from cfg env b urls i0 stats).started ≤ i)
    ∧ (∀ (cfg : Config) (env : ItemEnv) (url : String)
        (stats : ProcessingStats) (k : Nat),
        env.initialDup = false → 1 ≤ k → k ≤ cfg.max_retries →
        (∀ j, 1 ≤ j → j < k →
          env.shouldStop j = false
          ∧ (env.devtools j && env.verifyAfterDevtools j) = false
          ∧ (env.tabOpenerExists = true →
              (env.tabOpener j && env.verifyAfterTabOpener j) = false)) →
        env.shouldStop k = true →
        (process_single_url cfg env url stats).outcome = .stoppedByUser
        ∧ (process_single_url cfg env url stats).stats = stats
        ∧ (process_single_url cfg env url stats).devtoolsCalls = k - 1
        ∧ (process_single_url cfg env url stats).tabOpenerCalls
            = (if env.tabOpenerExists = true then k - 1 else 0)) :=
  ⟨fun cfg env batches b0 b stats h =>
      process_batches_stopBound cfg env batches b0 b stats h,
   fun cfg env b urls i0 i stats h =>
      process_batch_from_stopBound cfg env b urls i0 i stats h,
   fun cfg env url stats k hdup hk1 hk2 hbefore hk => by
      have h := runAttempts_stopAtRead cfg env url cfg.max_retries 1 stats k
        hk1 (by omega) (fun j hj1 hj2 => hbefore j hj1 hj2) hk
      simpa [process_single_url, hdup] using h⟩

/-- C4 witness: the three clauses applied to a concrete run observed
after the shutdown flag is set: no batch starts, no task starts, and an
in-flight item whose flag was raised during the retry wait aborts at
its second attempt check with stats untouched, having triggered only
its first attempt. -/
theorem C4_witness :
    (process_batches { } envRunStopped [["http://a"]] 0 { }).batchesStarted ≤ 0
    ∧ (process_batch_from { } envRunStopped 0 ["http://a"] 0 { }).started ≤ 0
    ∧ (process_single_url { } envLateStop "http://a" { }).outcome
        = .stoppedByUser
    ∧ (process_single_url { } envLateStop "http://a" { }).stats
        = ({ } : ProcessingStats)
    ∧ (process_single_url { } envLateStop "http://a" { }).devtoolsCalls = 2 - 1
    ∧ (process_single_url { } envLateStop "http://a" { }).tabOpenerCalls
        = (if envLateStop.tabOpenerExists = true then 2 - 1 else 0) := by
  have h3 := C4_thm.2.2 { } envLateStop "http://a" { } 2 rfl (by omega)
    (by decide)
    (fun j hj1 hj2 => by
      have hj : j = 1 := by omega
      subst hj
      exact ⟨rfl, rfl, fun hcontra => by simp [envLateStop] at hcontra⟩)
    rfl
  exact ⟨C4_thm.1 { } envRunStopped [["http://a"]] 0 0 { } rfl,
    C4_thm.2.1 { } envRunStopped 0 ["http://a"] 0 0 { } rfl,
    h3.1, h3.2.1, h3.2.2.1, h3.2.2.2⟩

/-- C4 counterexample: with the shutdown flag set at every read point,
an in-flight task whose duplicate check is positive terminates with the
`skippedDuplicate` outcome, not the Aborted one — refuting "every
in-flight item task terminates with the Aborted outcome". -/
theorem C4_counterexample :
    envShutdownDup.shouldStop 0 = true
    ∧ envShutdownDup.shouldStop 1 = true
    ∧ (process_single_url { } envShutdownDup "http://a" { }).outcome
        = .skippedDuplicate
    ∧ (process_single_url { } envShutdownDup "http://a" { }).outcome
        ≠ .stoppedByUser :=
  ⟨rfl, rfl, rfl, by decide⟩

end ClaimTheorems
